import Mathlib

/-!
Shallow embedding of the survey application's analytics and builder logic.

The analytics page (AnalyticsPage) derives aggregate statistics from a list
of fetched question records: totals, overall skip rate, per-level answer
counts, a correct/incorrect response distribution reconciled by linear
scaling, and a "most skipped" top-3 ranking over Input-type questions.
The survey builder (SurveyPage) maintains an editable working set of
questions grouped by difficulty level.

JavaScript numeric idioms are embedded over Nat/Int:
`x || 0` on a possibly-absent counter becomes `Option.getD · 0`;
`Math.round x` for non-negative rational num/den becomes
`(2*num + den) / (2*den)` (floor of x + 1/2, which is how JS rounds
non-negative halves); `(r).toFixed(1)` for the non-negative rational
percentages in this code becomes decimal rendering of the half-up rounded
tenths value; `Number` applied to such a one-decimal string recovers the
tenths value divided by ten, so comparisons of parsed strings are embedded
as comparisons of the Nat tenths keys.
-/

/-- Embedded answer option of a question: its isCorrect field may be absent
(undefined), which the analytics code distinguishes from true and false by
strict equality checks. -/
structure AnswerOption where
  isCorrect : Option Bool
deriving DecidableEq, Repr

/-- Question record as used by AnalyticsPage and SurveyPage: identifier
(empty for unsaved), text, type ("Input" or an MCQ variant), category,
level string, counters (absent modelled as none, read through `|| 0`), and
the optional embedded answer-option list. -/
structure Question where
  questionID : String
  question : String
  questionType : String
  questionCategory : String
  questionLevel : String
  timesAnswered : Option Nat
  timesSkipped : Option Nat
  answers : Option (List AnswerOption)
deriving DecidableEq, Repr

/-- The fixed level order from `const LEVELS = ["Beginner", "Intermediate", "Advanced"]`. -/
def LEVELS : List String := ["Beginner", "Intermediate", "Advanced"]

/-- Reading of `q.timesAnswered || 0`. -/
def ta (q : Question) : Nat := q.timesAnswered.getD 0

/-- Reading of `q.timesSkipped || 0`. -/
def ts (q : Question) : Nat := q.timesSkipped.getD 0

/-- Sum of `timesAnswered` over all questions (header stat `totalAnswered`). -/
def totalAnswered (qs : List Question) : Nat := (qs.map ta).sum

/-- Sum of `timesSkipped` over all questions (header stat `totalSkipped`). -/
def totalSkipped (qs : List Question) : Nat := (qs.map ts).sum

/-- Header stat `totalResponses = totalAnswered + totalSkipped`. -/
def totalResponses (qs : List Question) : Nat := totalAnswered qs + totalSkipped qs

/-- JS `Math.round (num / den)` for non-negative integers, den > 0:
floor of the value plus one half (JS rounds half toward positive infinity). -/
def jsRound (num den : Nat) : Nat := (2 * num + den) / (2 * den)

/-- Tenths value of `(num / den * 100).toFixed(1)`: the rational
`num / den * 100` scaled by ten and rounded half-up to an integer. -/
def pctTenths (num den : Nat) : Nat := (2000 * num + den) / (2 * den)

/-- Decimal rendering of a tenths value as the one-decimal string
produced by `toFixed(1)`: integer part, a dot, and one digit. -/
def tenthsToString (n : Nat) : String := Nat.repr (n / 10) ++ "." ++ Nat.repr (n % 10)

/-- The string `(num / den * 100).toFixed(1)` for non-negative integers with den > 0. -/
def pctString (num den : Nat) : String := tenthsToString (pctTenths num den)

/-- Header stat `overallSkipRate`: guarded percentage string, "0.0" when
there are no responses. -/
def overallSkipRate (qs : List Question) : String :=
  if 0 < totalResponses qs then pctString (totalSkipped qs) (totalResponses qs) else "0.0"

/-- Bar-chart data `levelAnswerCounts`: for each fixed level in order, the
sum of `timesAnswered` over questions whose level string matches exactly. -/
def levelAnswerCounts (qs : List Question) : List Nat :=
  LEVELS.map fun lvl => ((qs.filter fun q => q.questionLevel == lvl).map ta).sum

/-- The filter `questions.filter(q => q.questionType === "Input")`. -/
def inputQuestions (qs : List Question) : List Question :=
  qs.filter fun q => q.questionType == "Input"

/-- Reading of `question.answers` guarded by the existence check: absent
lists contribute nothing. -/
def optionListOf (q : Question) : List AnswerOption := q.answers.getD []

/-- Options of a question counted as correct: `answer.isCorrect === true`. -/
def correctOf (q : Question) : Nat :=
  (optionListOf q).countP fun a => a.isCorrect == some true

/-- Options of a question counted as incorrect: `answer.isCorrect === false`. -/
def incorrectOf (q : Question) : Nat :=
  (optionListOf q).countP fun a => a.isCorrect == some false

/-- Options of a question whose isCorrect flag is neither exactly true nor
exactly false (absent), counted by neither branch of the distributor. -/
def unknownOf (q : Question) : Nat :=
  (optionListOf q).countP fun a => a.isCorrect == none

/-- `correctResponses`: correct options summed over Input-type questions only. -/
def correctResponses (qs : List Question) : Nat :=
  ((inputQuestions qs).map correctOf).sum

/-- `incorrectResponses`: incorrect options summed over Input-type questions only. -/
def incorrectResponses (qs : List Question) : Nat :=
  ((inputQuestions qs).map incorrectOf).sum

/-- `totalAnsweredFromInputs = correctResponses + incorrectResponses`
(the raw total of the Correctness Distributor). -/
def totalAnsweredFromInputs (qs : List Question) : Nat :=
  correctResponses qs + incorrectResponses qs

/-- `finalCorrectResponses`: when the raw total is positive, the raw correct
share scaled to `totalAnswered` and rounded; otherwise zero. -/
def finalCorrectResponses (qs : List Question) : Nat :=
  if 0 < totalAnsweredFromInputs qs then
    jsRound (correctResponses qs * totalAnswered qs) (totalAnsweredFromInputs qs)
  else 0

/-- `finalIncorrectResponses = totalAnswered - finalCorrectResponses`
(JS subtraction, so embedded over Int). -/
def finalIncorrectResponses (qs : List Question) : Int :=
  (totalAnswered qs : Int) - (finalCorrectResponses qs : Int)

/-- Total number of embedded options over Input-type questions. -/
def totalOptionsOfInputs (qs : List Question) : Nat :=
  ((inputQuestions qs).map fun q => (optionListOf q).length).sum

/-- Options over Input-type questions whose isCorrect flag is absent. -/
def unknownResponses (qs : List Question) : Nat :=
  ((inputQuestions qs).map unknownOf).sum

/-- Substring test at the head: the needle's characters begin the haystack. -/
def startsWith : List Char → List Char → Bool
  | [], _ => true
  | _ :: _, [] => false
  | a :: as, b :: bs => a == b && startsWith as bs

/-- JS `hay.includes(needle)` on character lists: the needle occurs at some
position of the haystack. -/
def occursIn (needle : List Char) : List Char → Bool
  | [] => startsWith needle []
  | c :: cs => startsWith needle (c :: cs) || occursIn needle cs

/-- JS `hay.includes(needle)` on strings (case-sensitive, as in the source). -/
def containsStr (needle hay : String) : Bool := occursIn needle.data hay.data

/-- View state of AnalyticsPage as rendered: the four mutually exclusive
branches (loading, empty, error, ready) in their source order. -/
inductive ViewState where
  | loading
  | empty
  | error
  | ready
deriving DecidableEq, Repr

/-- Rendering order of AnalyticsPage: the loading guard, then the isEmpty
branch, then the error branch (which requires a message and not isEmpty),
then the ready dashboard. -/
def renderState (loading : Bool) (isEmp : Bool) (err : Option String) : ViewState :=
  if loading then ViewState.loading
  else if isEmp then ViewState.empty
  else if err.isSome then ViewState.error
  else ViewState.ready

/-- Error-message classifier of handleRefresh and fetchData: a caught
message that includes "404", "No questions", or "empty" marks the empty case. -/
def isEmptyMarker (msg : String) : Bool :=
  containsStr "404" msg || containsStr "No questions" msg || containsStr "empty" msg

/-- The (isEmpty, err) pair handleRefresh/fetchData leave in state after a
completed fetch: a success records whether zero questions arrived; a caught
error carrying an empty marker sets the empty flag (with an explanatory
message), any other error stores its message. -/
def refreshOutcome : Except String (List Question) → Bool × Option String
  | Except.ok qs => (qs.length == 0, none)
  | Except.error msg =>
    if isEmptyMarker msg then
      (true, some "No questions found in the database. Please add some questions first in the admin dashboard.")
    else (false, some msg)

/-- View state shown after a fetch completes (loading has been cleared by
the finally block), combining the stored flags with the render order. -/
def refreshState (r : Except String (List Question)) : ViewState :=
  renderState false (refreshOutcome r).1 (refreshOutcome r).2

/-- Questions left by a completed fetch: a success stores the fetched list;
an error classified as empty clears the list; other errors leave it as is
(the page then renders the error branch, so the list is irrelevant there). -/
def refreshQuestions (prev : List Question) : Except String (List Question) → List Question
  | Except.ok qs => qs
  | Except.error msg => if isEmptyMarker msg then [] else prev

/-- Per-question exposure total `(q.timesAnswered || 0) + (q.timesSkipped || 0)`. -/
def exposureTotal (q : Question) : Nat := ta q + ts q

/-- Numeric tenths key of a question's skip-rate string: the value
`Number(skipRate) * 10`, zero when the question has no exposures. -/
def skipKey (q : Question) : Nat :=
  if 0 < exposureTotal q then pctTenths (ts q) (exposureTotal q) else 0

/-- Skip-rate string attached to a question by the most-skipped mapping:
the guarded `toFixed(1)` percentage, "0.0" without exposures. -/
def skipRateStr (q : Question) : String :=
  if 0 < exposureTotal q then pctString (ts q) (exposureTotal q) else "0.0"

/-- The spread `{ ...q, skipRate }` of the most-skipped mapping, embedded
as the pair of the question and its skip-rate string. -/
def rated (q : Question) : Question × String := (q, skipRateStr q)

/-- Comparator of the most-skipped sort: `(a, b) => Number(b.skipRate) - Number(a.skipRate)`
places a before b when a's parsed rate is at least b's; parsing the
one-decimal strings recovers the tenths keys, so the comparison is on keys. -/
def skipGE (a b : Question × String) : Bool := skipKey b.1 ≤ skipKey a.1

/-- The mapped-and-sorted list of Input questions with their skip rates,
before truncation (JS Array.sort is stable, embedded as a stable merge sort). -/
def sortedRated (qs : List Question) : List (Question × String) :=
  ((inputQuestions qs).map rated).mergeSort skipGE

/-- `mostSkippedInputQuestions`: Input questions with skip rates, sorted
descending by parsed rate, truncated to the top 3 by `slice(0, 3)`. -/
def mostSkippedInputQuestions (qs : List Question) : List (Question × String) :=
  (sortedRated qs).take 3

/-- The three fixed difficulty levels of the survey builder. -/
inductive Level where
  | Beginner
  | Intermediate
  | Advanced
deriving DecidableEq, Repr

/-- Level rendered as its string, matching the string literals of `LEVELS`. -/
def levelStr : Level → String
  | Level.Beginner => "Beginner"
  | Level.Intermediate => "Intermediate"
  | Level.Advanced => "Advanced"

/-- The builder's level list in its fixed order. -/
def levelList : List Level := [Level.Beginner, Level.Intermediate, Level.Advanced]

/-- The builder's working set `questionsByLevel`: one editable question list
per fixed level. -/
def QMap : Type := Level → List Question

/-- The synthesized empty placeholder question of a level (empty id, empty
text, Input type, empty category, zero answered counter). -/
def placeholder (lvl : Level) : Question :=
  { questionID := ""
    question := ""
    questionType := "Input"
    questionCategory := ""
    questionLevel := levelStr lvl
    timesAnswered := some 0
    timesSkipped := none
    answers := none }

/-- Working set as first initialized: one placeholder per level. -/
def initMap : QMap := fun lvl => [placeholder lvl]

/-- The grouping pass of the populate effect: questions whose level string
is one of the recognized levels go into that level's list, in order. -/
def grouped (qs : List Question) (lvl : Level) : List Question :=
  qs.filter fun q => q.questionLevel == levelStr lvl

/-- The placeholder pass of the populate effect: any level whose list came
out empty receives a single synthesized placeholder. -/
def ensureNonEmpty (m : QMap) : QMap := fun lvl =>
  if (m lvl).isEmpty then [placeholder lvl] else m lvl

/-- The populate effect of SurveyPage: with zero fetched questions it
returns early and keeps the previous map; otherwise it groups the fetched
questions by recognized level and synthesizes placeholders for empty levels. -/
def populateEffect (prev : QMap) (qs : List Question) : QMap :=
  if qs.isEmpty then prev else ensureNonEmpty (grouped qs)

/-- onDeleteCurrent: with at most one entry in the current tab the call
returns (keeping the placeholder); otherwise the entry at the current index
is removed from the current tab's list. -/
def deleteCurrent (m : QMap) (tab : Level) (idx : Nat) : QMap :=
  if (m tab).length ≤ 1 then m
  else fun lvl => if lvl = tab then (m tab).eraseIdx idx else m lvl

/-- confirmDeleteAllQuestions: the chosen level's list is replaced by a
single synthesized placeholder. -/
def deleteAllQuestions (m : QMap) (lvl : Level) : QMap :=
  fun l => if l = lvl then [placeholder lvl] else m l

/-- The level-reassignment branch of onUpdateQuestion: the question at the
current index leaves the current tab's list and is appended (with its level
field rewritten) to the new level's list; the second state update reads the
new level's list from the pre-update map, so when the new level equals the
current tab it wins and duplicates the entry, exactly as the two stacked
setState calls do in the source. No placeholder is synthesized for the
vacated tab. An out-of-range index (unreachable from the UI, which only
renders existing entries) is modelled as a no-op. -/
def reassignLevel (m : QMap) (tab : Level) (idx : Nat) (newLvl : Level) : QMap :=
  match (m tab).get? idx with
  | none => m
  | some q =>
    let updated := { q with questionLevel := levelStr newLvl }
    fun l =>
      if l = newLvl then m newLvl ++ [updated]
      else if l = tab then (m tab).eraseIdx idx
      else m l

/-- Invariant claimed of the working set: every level has at least one entry. -/
def levelInv (m : QMap) : Prop := ∀ lvl, m lvl ≠ []

/-- JS whitespace test for the characters relevant to `trim`. -/
def isWs (c : Char) : Bool := c == ' ' || c == '\t' || c == '\n' || c == '\r'

/-- JS `s.trim()`: leading and trailing whitespace removed. -/
def jsTrim (s : String) : String :=
  String.mk (((s.data.dropWhile isWs).reverse.dropWhile isWs).reverse)

/-- The eligibility filter of handleCreateNew and handleUpdate:
`q.question.trim() && q.questionCategory && q.questionLevel` — the trimmed
text and both fields must be non-empty strings. -/
def eligible (q : Question) : Bool :=
  jsTrim q.question != "" && q.questionCategory != "" && q.questionLevel != ""

/-- The batch submitted by handleCreateNew and handleUpdate: all levels'
lists flattened in level order, restricted to eligible questions. -/
def submittedQuestions (m : QMap) : List Question :=
  ((levelList.map m).flatten).filter eligible

/-- Helper to build a concrete question record. -/
def mkQ (typ lvl : String) (a s : Option Nat) (opts : Option (List AnswerOption)) : Question :=
  { questionID := "x"
    question := "t"
    questionType := typ
    questionCategory := "c"
    questionLevel := lvl
    timesAnswered := a
    timesSkipped := s
    answers := opts }

/-- The spec's worked example: a Beginner question answered 10 times and an
Advanced question skipped 5 times. -/
def exampleStats : List Question :=
  [mkQ "Input" "Beginner" (some 10) (some 0) none,
   mkQ "Input" "Advanced" (some 0) (some 5) none]

/-- A question set whose raw correct/incorrect total is zero while its
answered counter is positive: a single MCQ question answered 5 times. -/
def exampleNoRaw : List Question := [mkQ "MCQ" "Beginner" (some 5) none none]

/-- An Input question with one flagged option and one option whose
isCorrect field is absent. -/
def exampleUnflagged : List Question :=
  [mkQ "Input" "Beginner" (some 1) none (some [⟨some true⟩, ⟨none⟩])]

/-- Claim C1: for every question list, the Correctness Distributor's two
outputs sum exactly to the totalAnswered counter. -/
theorem distributor_outputs_sum_to_totalAnswered (qs : List Question) :
    (finalCorrectResponses qs : Int) + finalIncorrectResponses qs = (totalAnswered qs : Int) := by
  unfold finalIncorrectResponses
  ring

/-- Claim C2 counterexample: on a question set with rawTotal zero and a
positive answered counter, the incorrect output equals that counter, not
zero, so the two final outputs are not both zero. -/
theorem rawTotal_zero_outputs_not_both_zero :
    totalAnsweredFromInputs exampleNoRaw = 0 ∧
    totalAnswered exampleNoRaw = 5 ∧
    ¬(finalCorrectResponses exampleNoRaw = 0 ∧ finalIncorrectResponses exampleNoRaw = 0) := by
  refine ⟨rfl, rfl, ?_⟩
  intro h
  have h2 : finalIncorrectResponses exampleNoRaw = 5 := by decide
  rw [h2] at h
  exact absurd h.2 (by decide)

/-- Claim C2 amended: when rawTotal is zero the correct output is zero and
the incorrect output equals totalAnswered (so both are zero only when
totalAnswered is). -/
theorem rawTotal_zero_amended (qs : List Question)
    (h : totalAnsweredFromInputs qs = 0) :
    finalCorrectResponses qs = 0 ∧ finalIncorrectResponses qs = (totalAnswered qs : Int) := by
  have h1 : finalCorrectResponses qs = 0 := by
    unfold finalCorrectResponses
    simp [h]
  exact ⟨h1, by unfold finalIncorrectResponses; rw [h1]; ring⟩

/-- Claim C2 amended, witness at the concrete rawTotal-zero set. -/
theorem rawTotal_zero_amended_witness :
    totalAnsweredFromInputs exampleNoRaw = 0 ∧
    (finalCorrectResponses exampleNoRaw = 0 ∧
     finalIncorrectResponses exampleNoRaw = (totalAnswered exampleNoRaw : Int)) :=
  ⟨rfl, rawTotal_zero_amended exampleNoRaw rfl⟩

/-- Options of one question split into correct, incorrect and unflagged. -/
theorem counts_partition_options (q : Question) :
    correctOf q + incorrectOf q + unknownOf q = (optionListOf q).length := by
  unfold correctOf incorrectOf unknownOf
  induction optionListOf q with
  | nil => simp
  | cons a t ih =>
    rcases h : a.isCorrect with _ | b
    · simp [List.countP_cons, h]
      omega
    · cases b <;> simp [List.countP_cons, h] <;> omega

/-- Summing three pointwise-complementary counts over a question list. -/
theorem sum_map_counts (l : List Question) :
    (l.map correctOf).sum + (l.map incorrectOf).sum + (l.map unknownOf).sum =
      (l.map fun q => (optionListOf q).length).sum := by
  induction l with
  | nil => simp
  | cons q t ih =>
    simp only [List.map_cons, List.sum_cons]
    have := counts_partition_options q
    omega

/-- Claim C9: options with an absent isCorrect flag are counted by neither
branch, so the raw total plus the unflagged count exhausts the options of
the Input questions, and on a concrete set with an unflagged option the
raw total is strictly below the option count. -/
theorem rawTotal_omits_unflagged_options (qs : List Question) :
    totalAnsweredFromInputs qs + unknownResponses qs = totalOptionsOfInputs qs ∧
    totalAnsweredFromInputs exampleUnflagged < totalOptionsOfInputs exampleUnflagged := by
  constructor
  · unfold totalAnsweredFromInputs unknownResponses totalOptionsOfInputs correctResponses incorrectResponses
    have := sum_map_counts (inputQuestions qs)
    omega
  · decide

/-- Decimal rendering of a single digit is one character long. -/
theorem repr_digit_length {m : Nat} (h : m < 10) : (Nat.repr m).length = 1 := by
  interval_cases m <;> rfl

/-- Claim C7: the overall skip rate is "0.0" with no responses, otherwise
the half-up rounded percentage rendered with exactly one decimal digit,
and the spec's worked example evaluates as stated. -/
theorem overallSkipRate_spec (qs : List Question) :
    (totalResponses qs = 0 → overallSkipRate qs = "0.0") ∧
    (0 < totalResponses qs →
      overallSkipRate qs = pctString (totalSkipped qs) (totalResponses qs)) ∧
    (∃ k : Nat, overallSkipRate qs = Nat.repr (k / 10) ++ "." ++ Nat.repr (k % 10) ∧
      (Nat.repr (k % 10)).length = 1) ∧
    (overallSkipRate exampleStats = "33.3" ∧ totalResponses exampleStats = 15 ∧
      totalAnswered exampleStats = 10 ∧ totalSkipped exampleStats = 5) := by
  refine ⟨?_, ?_, ?_, by decide⟩
  · intro h
    unfold overallSkipRate
    simp [h]
  · intro h
    unfold overallSkipRate
    simp [h]
  · by_cases h : 0 < totalResponses qs
    · refine ⟨pctTenths (totalSkipped qs) (totalResponses qs), ?_,
        repr_digit_length (Nat.mod_lt _ (by decide))⟩
      unfold overallSkipRate pctString tenthsToString
      simp [h]
    · refine ⟨0, ?_, by decide⟩
      unfold overallSkipRate
      rw [if_neg h]
      decide

/-- Claim C7 witness: both guard branches exercised at concrete inputs. -/
theorem overallSkipRate_spec_witness :
    totalResponses ([] : List Question) = 0 ∧
    overallSkipRate ([] : List Question) = "0.0" ∧
    0 < totalResponses exampleStats ∧
    overallSkipRate exampleStats =
      pctString (totalSkipped exampleStats) (totalResponses exampleStats) :=
  ⟨rfl, (overallSkipRate_spec []).1 rfl, by decide,
    (overallSkipRate_spec exampleStats).2.1 (by decide)⟩

/-- Answer count of a single fixed level: sum of timesAnswered over the
questions whose level string matches it exactly. -/
def levelAnswerCount (qs : List Question) (lvl : String) : Nat :=
  ((qs.filter fun q => q.questionLevel == lvl).map ta).sum

/-- Whether a question's level is one of the three recognized levels. -/
def recognizedLevel (q : Question) : Bool := LEVELS.contains q.questionLevel

/-- One cons step of the per-level count sums, with the level string and
the tail sums generalized. -/
theorem levelCount_step (s : String) (a cB cI cA cR : Nat) (ih : cB + cI + cA = cR) :
    ((if s == "Beginner" then a + cB else cB) +
        (if s == "Intermediate" then a + cI else cI)) +
      (if s == "Advanced" then a + cA else cA) =
      (if (s == "Beginner" || (s == "Intermediate" || s == "Advanced")) then a + cR else cR) := by
  by_cases hb : s = "Beginner"
  · subst hb
    simp
    omega
  · by_cases hi : s = "Intermediate"
    · subst hi
      simp
      omega
    · by_cases ha : s = "Advanced"
      · subst ha
        simp
        omega
      · simp [hb, hi, ha]
        omega

/-- The three per-level counts together exhaust exactly the questions with
a recognized level. -/
theorem sum_level_counts (qs : List Question) :
    levelAnswerCount qs "Beginner" + levelAnswerCount qs "Intermediate" +
      levelAnswerCount qs "Advanced" =
      totalAnswered (qs.filter recognizedLevel) := by
  induction qs with
  | nil => rfl
  | cons q t ih =>
    have hrec : recognizedLevel q =
        (q.questionLevel == "Beginner" ||
          (q.questionLevel == "Intermediate" || q.questionLevel == "Advanced")) := by
      simp [recognizedLevel, LEVELS, Bool.beq_eq_decide_eq]
    unfold levelAnswerCount totalAnswered
    rw [List.filter_cons, List.filter_cons, List.filter_cons, List.filter_cons, hrec]
    simp only [apply_ite (fun l : List Question => (List.map ta l).sum), List.map_cons,
      List.sum_cons]
    exact levelCount_step q.questionLevel (ta q) _ _ _ _ ih

/-- Claim C8: the per-level answer counts form a length-3 sequence aligned
with the fixed enumeration order, each entry summing timesAnswered over
exact level matches, and the sequence sums to totalAnswered restricted to
recognized levels. -/
theorem levelAnswerCounts_spec (qs : List Question) :
    (levelAnswerCounts qs).length = LEVELS.length ∧
    levelAnswerCounts qs =
      [levelAnswerCount qs "Beginner", levelAnswerCount qs "Intermediate",
        levelAnswerCount qs "Advanced"] ∧
    (levelAnswerCounts qs).sum = totalAnswered (qs.filter recognizedLevel) := by
  refine ⟨rfl, rfl, ?_⟩
  have := sum_level_counts qs
  simp only [levelAnswerCounts, LEVELS, List.map_cons, List.map_nil, List.sum_cons,
    List.sum_nil]
  unfold levelAnswerCount at this
  omega

/-- Claim C3 counterexample: the error message "there are no questions"
contains the lowercase marker "no questions" claimed for the classifier,
yet the engine routes it to the error state, because the source checks the
capitalized marker "No questions" with a case-sensitive includes. -/
theorem lowercase_marker_goes_to_error :
    containsStr "no questions" "there are no questions" = true ∧
    refreshState (Except.error "there are no questions") = ViewState.error := by
  constructor
  · decide
  · decide

/-- Claim C3 amended: a fetch failure whose message contains "404",
"No questions" (capital N, case-sensitive), or "empty" is routed to the
empty state, and in particular the thrown message "404 no questions found"
yields the empty state. -/
theorem marker_errors_routed_to_empty :
    (∀ msg : String, isEmptyMarker msg = true →
      refreshState (Except.error msg) = ViewState.empty) ∧
    refreshState (Except.error "404 no questions found") = ViewState.empty := by
  constructor
  · intro msg h
    simp [refreshState, refreshOutcome, h, renderState]
  · decide

/-- Claim C3 amended, witness at the claim's own example message. -/
theorem marker_errors_routed_to_empty_witness :
    isEmptyMarker "404 no questions found" = true ∧
    refreshState (Except.error "404 no questions found") = ViewState.empty :=
  ⟨by decide, marker_errors_routed_to_empty.1 "404 no questions found" (by decide)⟩

/-- Claim C4: a successful fetch of zero questions lands in the empty
state (err stays unset), and whenever the empty flag and an error message
are both set the empty branch renders before the error branch. -/
theorem empty_fetch_not_error :
    (∀ qs : List Question, qs.length = 0 →
      refreshState (Except.ok qs) = ViewState.empty ∧
        (refreshOutcome (Except.ok qs)).2 = none) ∧
    (∀ msg : String, renderState false true (some msg) = ViewState.empty) := by
  constructor
  · intro qs h
    constructor
    · unfold refreshState refreshOutcome renderState
      simp [h]
    · rfl
  · intro msg
    rfl

/-- Claim C4 witness: the empty-list fetch and a state with both the empty
flag and a message, at concrete inputs. -/
theorem empty_fetch_not_error_witness :
    ([] : List Question).length = 0 ∧
    (refreshState (Except.ok ([] : List Question)) = ViewState.empty ∧
      (refreshOutcome (Except.ok ([] : List Question))).2 = none) ∧
    renderState false true (some "boom") = ViewState.empty :=
  ⟨rfl, empty_fetch_not_error.1 [] rfl, empty_fetch_not_error.2 "boom"⟩

/-- A working set in which Beginner holds exactly one real question and the
other levels hold their placeholders. -/
def singleBeginnerMap : QMap := fun l =>
  match l with
  | Level.Beginner => [mkQ "Input" "Beginner" (some 0) none none]
  | Level.Intermediate => [placeholder Level.Intermediate]
  | Level.Advanced => [placeholder Level.Advanced]

/-- Claim C5 counterexample: reassigning the only Beginner question to
Intermediate leaves the Beginner level with zero entries — no placeholder
is synthesized by the level-reassignment operation. -/
theorem reassign_leaves_level_empty :
    singleBeginnerMap Level.Beginner ≠ [] ∧
    singleBeginnerMap Level.Intermediate ≠ [] ∧
    singleBeginnerMap Level.Advanced ≠ [] ∧
    (reassignLevel singleBeginnerMap Level.Beginner 0 Level.Intermediate) Level.Beginner = [] := by
  refine ⟨by decide, by decide, by decide, ?_⟩
  decide

/-- Claim C5 amended: populating from a fetch, deleting the current
question, and deleting all questions of a level each preserve the
invariant that every level has at least one entry (a placeholder is
synthesized where needed); the level-reassignment operation is excluded,
as it can vacate a level. -/
theorem working_set_levels_nonempty (m : QMap) (qs : List Question)
    (tab : Level) (idx : Nat) (lvl : Level) (hm : levelInv m) :
    levelInv (populateEffect m qs) ∧ levelInv (deleteCurrent m tab idx) ∧
      levelInv (deleteAllQuestions m lvl) := by
  refine ⟨?_, ?_, ?_⟩
  · unfold populateEffect
    split
    · exact hm
    · intro l
      unfold ensureNonEmpty
      split
      · simp
      · next h =>
        intro hnil
        rw [hnil] at h
        simp at h
  · unfold deleteCurrent
    split
    · exact hm
    · next h =>
      intro l
      by_cases hl : l = tab
      · subst hl
        show (if l = l then (m l).eraseIdx idx else m l) ≠ []
        rw [if_pos rfl]
        intro hnil
        have hlen := List.length_eraseIdx (m l) idx
        rw [hnil] at hlen
        simp only [List.length_nil] at hlen
        split at hlen <;> omega
      · simp only [if_neg hl]
        exact hm l
  · intro l
    unfold deleteAllQuestions
    split
    · simp
    · exact hm l

/-- Claim C5 amended, witness: the delete-all operation on the initial
working set leaves the Advanced level nonempty. -/
theorem working_set_levels_nonempty_witness :
    (deleteAllQuestions initMap Level.Beginner) Level.Advanced ≠ [] :=
  (working_set_levels_nonempty initMap [] Level.Beginner 0 Level.Beginner
    (fun l => by cases l <;> simp [initMap])).2.2 Level.Advanced

/-- Claim C10: every question in the submitted batch has non-blank trimmed
text, a non-empty category and a non-empty level, and no synthesized
placeholder is ever part of the batch. -/
theorem submitted_questions_complete (m : QMap) :
    ((submittedQuestions m).all eligible) = true ∧
    ∀ lvl, placeholder lvl ∉ submittedQuestions m := by
  constructor
  · exact List.all_eq_true.mpr fun q hq => (List.mem_filter.mp hq).2
  · intro lvl h
    have := (List.mem_filter.mp h).2
    rw [show eligible (placeholder lvl) = false from rfl] at this
    exact absurd this (by decide)

/-- Claim C10 witness: placeholders of the freshly initialized working set
are not submitted, and a working set holding one completed question
submits a batch in which that question's fields pass the filter. -/
theorem submitted_questions_complete_witness :
    placeholder Level.Beginner ∉ submittedQuestions initMap ∧
    ((submittedQuestions singleBeginnerMap).all eligible) = true :=
  ⟨(submitted_questions_complete initMap).2 Level.Beginner,
    (submitted_questions_complete singleBeginnerMap).1⟩

/-- The most-skipped comparator is transitive. -/
theorem skipGE_trans (a b c : Question × String) (hab : skipGE a b = true)
    (hbc : skipGE b c = true) : skipGE a c = true := by
  simp only [skipGE, decide_eq_true_eq] at *
  omega

/-- The most-skipped comparator is total. -/
theorem skipGE_total (a b : Question × String) : skipGE a b || skipGE b a := by
  simp only [skipGE, Bool.or_eq_true, decide_eq_true_eq]
  omega

/-- Stability of the most-skipped ordering: for every skip-rate key, the
entries carrying that key appear in the sorted list in exactly their
original relative order. -/
theorem sortedRated_filter_key (qs : List Question) (k : Nat) :
    (sortedRated qs).filter (fun p => skipKey p.1 == k) =
      ((inputQuestions qs).map rated).filter (fun p => skipKey p.1 == k) := by
  have hmemkey : ∀ p ∈ ((inputQuestions qs).map rated).filter (fun p => skipKey p.1 == k),
      skipKey p.1 = k := by
    intro p hp
    have := (List.mem_filter.mp hp).2
    simpa using this
  have hpw : (((inputQuestions qs).map rated).filter
      (fun p => skipKey p.1 == k)).Pairwise (fun a b => skipGE a b = true) := by
    apply List.pairwise_of_forall_mem_list
    intro a ha b hb
    have h1 := hmemkey a ha
    have h2 := hmemkey b hb
    simp [skipGE, h1, h2]
  have hsub : List.Sublist
      (((inputQuestions qs).map rated).filter (fun p => skipKey p.1 == k))
      (sortedRated qs) :=
    List.sublist_mergeSort skipGE_trans skipGE_total hpw
      (List.filter_sublist ((inputQuestions qs).map rated))
  have hperm : List.Perm ((sortedRated qs).filter (fun p => skipKey p.1 == k))
      (((inputQuestions qs).map rated).filter (fun p => skipKey p.1 == k)) :=
    (List.mergeSort_perm ((inputQuestions qs).map rated) skipGE).filter _
  have hidem : (((inputQuestions qs).map rated).filter (fun p => skipKey p.1 == k)).filter
      (fun p => skipKey p.1 == k) =
      ((inputQuestions qs).map rated).filter (fun p => skipKey p.1 == k) :=
    List.filter_eq_self.mpr fun a ha => (List.mem_filter.mp ha).2
  have hsubf := hsub.filter (fun p => skipKey p.1 == k)
  rw [hidem] at hsubf
  exact (hsubf.eq_of_length hperm.length_eq.symm).symm

/-- Every entry of the most-skipped ranking comes from an Input-type
question and carries exactly its guarded skip-rate string. -/
theorem mem_mostSkipped (qs : List Question) (p : Question × String)
    (hp : p ∈ mostSkippedInputQuestions qs) :
    p.1.questionType = "Input" ∧ p.2 = skipRateStr p.1 := by
  have h1 : p ∈ sortedRated qs := List.take_subset 3 _ hp
  have h2 : p ∈ (inputQuestions qs).map rated := List.mem_mergeSort.mp h1
  obtain ⟨q, hq, rfl⟩ := List.mem_map.mp h2
  refine ⟨?_, rfl⟩
  have := (List.mem_filter.mp hq).2
  simpa using this

/-- Claim C6: the most-skipped ranking is the top-3 truncation of a stable
descending sort of the Input questions by parsed skip rate; it has length
min 3 (number of Input questions), it is pairwise descending on the
numeric key, ties retain their original relative order, and every entry is
an Input question paired with its guarded one-decimal skip-rate string. -/
theorem mostSkipped_spec (qs : List Question) :
    mostSkippedInputQuestions qs = (sortedRated qs).take 3 ∧
    (mostSkippedInputQuestions qs).length = min 3 (inputQuestions qs).length ∧
    (sortedRated qs).Pairwise (fun a b => skipKey b.1 ≤ skipKey a.1) ∧
    (∀ k : Nat, (sortedRated qs).filter (fun p => skipKey p.1 == k) =
      ((inputQuestions qs).map rated).filter (fun p => skipKey p.1 == k)) ∧
    ((mostSkippedInputQuestions qs).all fun p =>
      p.1.questionType == "Input" && p.2 == skipRateStr p.1) = true := by
  refine ⟨rfl, ?_, ?_, sortedRated_filter_key qs, ?_⟩
  · unfold mostSkippedInputQuestions sortedRated
    rw [List.length_take, List.length_mergeSort, List.length_map]
  · have hs := List.sorted_mergeSort skipGE_trans skipGE_total ((inputQuestions qs).map rated)
    exact hs.imp fun h => by simpa [skipGE] using h
  · refine List.all_eq_true.mpr fun p hp => ?_
    have h := mem_mostSkipped qs p hp
    simp [h.1, h.2]
